import Mathlib

/-
Verification of the `WrapFS` filesystem proxy (`fs/wrapfs.py`) of the
pyfilesystem2 repository against its natural-language specification.

The proxy delegates every filesystem operation to a wrapped filesystem.
We shallowly embed the methods of `WrapFS` as Lean functions.  The wrapped
filesystem is an external collaborator, so its behaviour is passed in as
function arguments (one per wrapped method used by the operation at hand);
filesystem instances are distinguished by a numeric instance identifier,
which plays the role of Python object identity for the `is` test in
`WrapFS.move`.  The path-translation hook `delegate_path` is a parameter
`dp : String -> Nat x String` (the source methods call the overridable
method `self.delegate_path`; in plain `WrapFS` it returns the wrapped
filesystem and the path unchanged, embedded as `WrapFS.delegate_path`).

Python dict mutation and aliasing (needed for the shallow-copy behaviour of
`WrapFS.getinfo`) are modelled with a small heap: top-level raw-info dicts
map namespace names to addresses of nested dicts, and nested dicts map field
names to values.  Copying a top-level dict allocates a fresh top-level
address with the same contents, so the nested dicts stay shared, exactly as
Python `dict.copy()` behaves.
-/

set_option autoImplicit false

/-- Errors visible through the proxy.  `wrappedErr` stands for an arbitrary
error raised by the wrapped filesystem (the structured error hierarchy is an
external collaborator); the other constructors are the errors the proxy (or
the move collaborator) raises itself, plus Python KeyError for a malformed
raw-info dict. -/
inductive Err where
  | filesystemClosed
  | destinationExists (path : String)
  | resourceInvalid
  | keyError
  | transferFailed
  | wrappedErr (code : Nat)
  deriving DecidableEq, Repr

/-- Values stored in the nested namespace dicts of a raw info mapping. -/
inductive PyVal where
  | vstr (s : String)
  | vbool (b : Bool)
  deriving DecidableEq, Repr

/-- Assoc-list lookup, first match wins; embeds Python dict indexing
(`d[k]`, returning `none` for KeyError) for dicts without duplicate keys. -/
def lookupA {α : Type} : List (String × α) → String → Option α
  | [], _ => none
  | (k, v) :: rest, key => if k = key then some v else lookupA rest key

/-- Assoc-list update; embeds Python dict assignment `d[k] = v`, replacing
the value in place when the key is present and appending otherwise. -/
def setA {α : Type} : List (String × α) → String → α → List (String × α)
  | [], key, v => [(key, v)]
  | (k, w) :: rest, key, v =>
      if k = key then (k, v) :: rest else (k, w) :: setA rest key v

/-- Heap of Python dict objects backing raw info mappings.  `top a` is the
contents of the top-level dict at address `a` (namespace name to nested dict
address); `sub a` is the contents of the nested dict at address `a`;
`nextTop` is the next fresh top-level address, and every allocated top-level
address is below it. -/
structure Heap where
  top : Nat → List (String × Nat)
  sub : Nat → List (String × PyVal)
  nextTop : Nat

/-- Reading a field of an info value: dereference the namespace dict of the
raw info at `addr`, then look the field up in it. -/
def infoField (h : Heap) (addr : Nat) (ns field : String) : Option PyVal :=
  match lookupA (h.top addr) ns with
  | none => none
  | some s => lookupA (h.sub s) field

/-- The `delegate_path` of plain `WrapFS` (source lines 50-60): return the
wrapped filesystem and the path unchanged. -/
def WrapFS.delegate_path (wrapAddr : Nat) (path : String) : Nat × String :=
  (wrapAddr, path)

/-- Embedding of `WrapFS.getinfo` (source lines 75-83).
`closed` is the proxy closed flag consulted by `self._check()`;
`dp` is the `delegate_path` hook; `wGetinfo` is the wrapped filesystem
`getinfo`, returning the heap address of the raw dict of the returned Info;
`isRootP path` is the collaborator test `abspath(normpath(path)) == "/"`
(the path library is out of scope for the spec and not under src, so it
stays abstract).  On the root path the raw dict is shallow-copied (fresh
top-level address, shared nested dicts) and the `name` entry of its `basic`
nested dict is mutated to the empty string. -/
def WrapFS.getinfo (closed : Bool) (dp : String → Nat × String)
    (wGetinfo : Nat → String → List String → Except Err Nat)
    (isRootP : String → Bool) (h : Heap) (path : String)
    (namespaces : List String) : Except Err (Heap × Nat) :=
  if closed then .error .filesystemClosed
  else
    match wGetinfo (dp path).1 (dp path).2 namespaces with
    | .error e => .error e
    | .ok rawAddr =>
      if isRootP path then
        match lookupA (h.top rawAddr) "basic" with
        | none => .error .keyError
        | some b =>
          .ok (⟨fun a => if a = h.nextTop then h.top rawAddr else h.top a,
                fun a => if a = b then setA (h.sub b) "name" (.vstr "")
                         else h.sub a,
                h.nextTop + 1⟩,
               h.nextTop)
      else .ok (h, rawAddr)

/-- Embedding of `WrapFS.listdir` (source lines 85-89): check the closed
flag, translate the path, return the wrapped listing unchanged. -/
def WrapFS.listdir (closed : Bool) (dp : String → Nat × String)
    (wListdir : Nat → String → Except Err (List String)) (path : String) :
    Except Err (List String) :=
  if closed then .error .filesystemClosed
  else wListdir (dp path).1 (dp path).2

/-- Embedding of the generator loop body of `WrapFS.scandir`
(`for info in ...: yield info`): re-yield every element in order. -/
def yieldAll {α : Type} : List α → List α
  | [] => []
  | x :: xs => x :: yieldAll xs

/-- Embedding of `WrapFS.scandir` (source lines 133-137): check the closed
flag, translate the path, and yield every wrapped entry in order.  Entries
are heap addresses of Info raw dicts; `namespaces` is forwarded unchanged. -/
def WrapFS.scandir (closed : Bool) (dp : String → Nat × String)
    (wScandir : Nat → String → Option (List String) → Except Err (List Nat))
    (path : String) (namespaces : Option (List String)) :
    Except Err (List Nat) :=
  if closed then .error .filesystemClosed
  else
    match wScandir (dp path).1 (dp path).2 namespaces with
    | .error e => .error e
    | .ok infos => .ok (yieldAll infos)

/-- Embedding of `WrapFS.filterdir` (source lines 176-193): check the
closed flag, translate the path, forward the five filtering parameters
unchanged and return the wrapped iterator unchanged. -/
def WrapFS.filterdir (closed : Bool) (dp : String → Nat × String)
    (wFilterdir : Nat → String → Bool → Bool → Option (List String) →
      Option (List String) → Option (List String) → Except Err (List Nat))
    (path : String) (exclude_dirs exclude_files : Bool)
    (wildcards dir_wildcards namespaces : Option (List String)) :
    Except Err (List Nat) :=
  if closed then .error .filesystemClosed
  else wFilterdir (dp path).1 (dp path).2 exclude_dirs exclude_files
    wildcards dir_wildcards namespaces

/-- Embedding of `WrapFS.remove` (source lines 123-126). -/
def WrapFS.remove (closed : Bool) (dp : String → Nat × String)
    (wRemove : Nat → String → Except Err Unit) (path : String) :
    Except Err Unit :=
  if closed then .error .filesystemClosed
  else wRemove (dp path).1 (dp path).2

/-- Embedding of `WrapFS.openbin` (source lines 112-121).  The wrapped
`openbin` receives the translated path, the mode, and the buffering value
the source passes on line 118, which is the literal `-1`, not the
caller-supplied `buffering` argument. -/
def WrapFS.openbin {α : Type} (closed : Bool) (dp : String → Nat × String)
    (wOpenbin : Nat → String → String → Int → Except Err α)
    (path mode : String) (buffering : Int) : Except Err α :=
  if closed then .error .filesystemClosed
  else wOpenbin (dp path).1 (dp path).2 mode (-1)

/-- Calls the proxy issues on wrapped filesystems and on the external
move/copy collaborators, recorded as an observable trace. -/
inductive FsCall where
  | existsQ (fs : Nat) (path : String)
  | nativeMove (fs : Nat) (src dst : String) (overwrite : Bool)
  | streamTransfer (srcFs : Nat) (src : String) (dstFs : Nat) (dst : String)
  | removeSource (fs : Nat) (path : String)
  | copyFileCall (srcFs : Nat) (src : String) (dstFs : Nat) (dst : String)
  deriving DecidableEq, Repr

/-- Does a call mutate filesystem state?  Existence queries do not; native
moves, streamed transfers, source removals and file copies do. -/
def FsCall.mutatesState : FsCall → Bool
  | .existsQ _ _ => false
  | _ => true

/-- Is the call a native (single-filesystem) move? -/
def FsCall.isNativeMove : FsCall → Bool
  | .nativeMove _ _ _ _ => true
  | _ => false

/-- Is the call an invocation of the streaming transfer collaborator? -/
def FsCall.isStream : FsCall → Bool
  | .streamTransfer _ _ _ _ => true
  | _ => false

/-- Is the call an existence query? -/
def FsCall.isExistsQ : FsCall → Bool
  | .existsQ _ _ => true
  | _ => false

/-- Embedding of `WrapFS.exists` (source lines 170-174): check the closed
flag, translate the path, query the wrapped filesystem. -/
def WrapFS.existsP (closed : Bool) (dp : String → Nat × String)
    (wExists : Nat → String → Bool) (path : String) :
    Except Err Bool × List FsCall :=
  if closed then (.error .filesystemClosed, [])
  else (.ok (wExists (dp path).1 (dp path).2),
        [.existsQ (dp path).1 (dp path).2])

/-- Modelled from the spec: `move_file` of `fs/move.py` is not under src/.
Per the spec, the slow path must "stream all bytes and metadata from
`(src_fs, src_path)` into `(dst_fs, dst_path)` via the external move/copy
collaborator, then (for move) remove the source".  `transferOk` abstracts
whether the byte transfer succeeds; the source is removed only after a
successful transfer. -/
def move_file (transferOk : Bool) (srcFs : Nat) (src : String) (dstFs : Nat)
    (dst : String) : Except Err Unit × List FsCall :=
  if transferOk then
    (.ok (), [.streamTransfer srcFs src dstFs dst, .removeSource srcFs src])
  else
    (.error .transferFailed, [.streamTransfer srcFs src dstFs dst])

/-- Modelled from the spec: `copy_file` of `fs/copy.py` is not under src/.
It is the external byte-level copy collaborator; `copyOk` abstracts whether
the transfer succeeds. -/
def copy_file (copyOk : Bool) (srcFs : Nat) (src : String) (dstFs : Nat)
    (dst : String) : Except Err Unit × List FsCall :=
  (if copyOk then .ok () else .error .transferFailed,
   [.copyFileCall srcFs src dstFs dst])

/-- Embedding of the dispatch part of `WrapFS.move` (source lines 105-110):
translate both paths, compare the two filesystem instances with `is`
(instance identity, embedded as equality of instance identifiers), and
either issue one native `move` on that filesystem or invoke the external
`move_file` collaborator.  Note that this part performs no closed check. -/
def WrapFS.moveCore (dp : String → Nat × String)
    (wMove : Nat → String → String → Bool → Except Err Unit)
    (transferOk : Bool) (src_path dst_path : String) (overwrite : Bool) :
    Except Err Unit × List FsCall :=
  if (dp src_path).1 = (dp dst_path).1 then
    (wMove (dp src_path).1 (dp src_path).2 (dp dst_path).2 overwrite,
     [.nativeMove (dp src_path).1 (dp src_path).2 (dp dst_path).2 overwrite])
  else
    move_file transferOk (dp src_path).1 (dp src_path).2
      (dp dst_path).1 (dp dst_path).2

/-- Embedding of `WrapFS.move` (source lines 101-110).  The method performs
no `self._check()` of its own; when `overwrite` is false it first calls
`self.exists(dst_path)` (which does check the closed flag) and raises
`DestinationExists` if the destination exists, then dispatches as in
`WrapFS.moveCore`. -/
def WrapFS.move (closed : Bool) (dp : String → Nat × String)
    (wExists : Nat → String → Bool)
    (wMove : Nat → String → String → Bool → Except Err Unit)
    (transferOk : Bool) (src_path dst_path : String) (overwrite : Bool) :
    Except Err Unit × List FsCall :=
  if overwrite = false then
    match WrapFS.existsP closed dp wExists dst_path with
    | (.error e, t) => (.error e, t)
    | (.ok true, t) => (.error (.destinationExists dst_path), t)
    | (.ok false, t) =>
      let r := WrapFS.moveCore dp wMove transferOk src_path dst_path overwrite
      (r.1, t ++ r.2)
  else WrapFS.moveCore dp wMove transferOk src_path dst_path overwrite

/-- Embedding of `WrapFS.copy` (source lines 154-157): translate both paths
and hand them to the external `copy_file` collaborator.  The method
consults neither the closed flag nor the overwrite situation; in
particular there is no `self._check()` call in the source. -/
def WrapFS.copy (closed : Bool) (dp : String → Nat × String)
    (copyOk : Bool) (src_path dst_path : String) :
    Except Err Unit × List FsCall :=
  copy_file copyOk (dp src_path).1 (dp src_path).2
    (dp dst_path).1 (dp dst_path).2

/-- Modelled from the spec: `SubFS` of `fs/subfs.py` is not under src/.
Per the spec, opening a sub-directory view "returns a new nested proxy
scoped to the given path"; we record the identifier of the parent proxy and
the scoping root path. -/
structure SubFS where
  parent : Nat
  rootPath : String
  deriving DecidableEq, Repr

/-- Modelled from the spec: the `Info.is_dir` property of `fs/info.py` is
not under src/.  Per the spec the info value object reports whether the
resource is a directory; it reads the `is_dir` field of the `basic`
namespace of the raw info dict. -/
def infoIsDir (h : Heap) (addr : Nat) : Bool :=
  match lookupA (h.top addr) "basic" with
  | some b =>
    match lookupA (h.sub b) "is_dir" with
    | some (.vbool v) => v
    | _ => false
  | none => false

/-- Embedding of `WrapFS.opendir` (source lines 291-298): fetch the info of
the path through the proxy (default namespaces), raise `ResourceInvalid`
when it is not a directory, and otherwise return `SubFS(self, path)` with
the caller path unchanged.  `selfId` is the identifier of the proxy
itself. -/
def WrapFS.opendir (closed : Bool) (selfId : Nat)
    (dp : String → Nat × String)
    (wGetinfo : Nat → String → List String → Except Err Nat)
    (isRootP : String → Bool) (h : Heap) (path : String) :
    Except Err SubFS :=
  match WrapFS.getinfo closed dp wGetinfo isRootP h path [] with
  | .error e => .error e
  | .ok (h2, addr) =>
    if infoIsDir h2 addr then .ok ⟨selfId, path⟩
    else .error .resourceInvalid

/-- A chain of wrapped filesystems as walked by `WrapFS.__str__`: a `wrap`
node is an object with a `_wrap_fs` attribute and an optional `wrap_name`
label; a `base` node is a non-proxy filesystem with its own string
rendering. -/
inductive FSChain where
  | base (render : String) : FSChain
  | wrap (wrap_name : Option String) (wrap_fs : FSChain) : FSChain
  deriving DecidableEq, Repr

/-- The while loop of `WrapFS.__str__` (source lines 37-43): walk inward
while the current object has a `_wrap_fs` attribute, appending each
non-`None` `wrap_name`; return the collected labels in walk order
(outermost first) together with the first non-proxy filesystem reached. -/
def collectWraps : FSChain → List String × String
  | .base r => ([], r)
  | .wrap n inner =>
    let rest := collectWraps inner
    (match n with
     | some nm => nm :: rest.1
     | none => rest.1, rest.2)

/-- Embedding of `WrapFS.__str__` (source lines 36-48): if any labels were
collected, render the reached filesystem directly followed by the labels in
reversed (innermost-first) order, joined by a comma and space and wrapped
in parentheses; otherwise render the reached filesystem alone. -/
def wrapStr (fs : FSChain) : String :=
  let wraps := (collectWraps fs).1
  if wraps.isEmpty then (collectWraps fs).2
  else (collectWraps fs).2 ++ "(" ++
    String.intercalate ", " wraps.reverse ++ ")"

theorem lookupA_setA {α : Type} (d : List (String × α)) (key : String)
    (v : α) (f : String) :
    lookupA (setA d key v) f = if key = f then some v else lookupA d f := by
  induction d with
  | nil =>
    by_cases hkf : key = f <;> simp [setA, lookupA, hkf]
  | cons p rest ih =>
    obtain ⟨k, w⟩ := p
    by_cases hk : k = key
    · subst hk
      by_cases hkf : k = f <;> simp [setA, lookupA, hkf]
    · by_cases hkf : k = f
      · subst hkf
        simp [setA, hk, lookupA]
        rw [if_neg (fun hkey => hk hkey.symm)]
      · simp [setA, hk, lookupA, hkf, ih]

theorem lookupA_mem {α : Type} {d : List (String × α)} {key : String}
    {v : α} (hl : lookupA d key = some v) : (key, v) ∈ d := by
  induction d with
  | nil => simp [lookupA] at hl
  | cons p rest ih =>
    obtain ⟨k, w⟩ := p
    by_cases hk : k = key
    · subst hk
      simp [lookupA] at hl
      subst hl
      exact List.mem_cons_self _ _
    · simp [lookupA, hk] at hl
      exact List.mem_cons_of_mem _ (ih hl)

/-- Claim C1: for every path `p`, the proxy getinfo returns exactly the
info that the wrapped getinfo returns for the translated path (with the
`WrapFS.delegate_path` translation the translated path is `p` itself),
except that when the translated path is the wrapped root — the collaborator
test `abspath(normpath(p)) == "/"`, abstracted as `isRootP p` — the name
field of the returned info is forced to the empty string.  `hsep` states
that no other namespace of the raw dict aliases the `basic` nested dict. -/
theorem WrapFS.getinfo_rootMask_correct
    (wrapAddr : Nat) (wG : Nat → String → List String → Except Err Nat)
    (isRootP : String → Bool) (h : Heap) (path : String)
    (namespaces : List String) (rawAddr b : Nat)
    (hw : wG wrapAddr path namespaces = .ok rawAddr)
    (hb : lookupA (h.top rawAddr) "basic" = some b)
    (hsep : ∀ pr ∈ h.top rawAddr, pr.2 = b → pr.1 = "basic") :
    ∃ h2 r,
      WrapFS.getinfo false (WrapFS.delegate_path wrapAddr) wG isRootP h path
          namespaces = .ok (h2, r) ∧
      ∀ n f, infoField h2 r n f =
        if isRootP path = true ∧ n = "basic" ∧ f = "name"
        then some (.vstr "") else infoField h rawAddr n f := by
  by_cases hroot : isRootP path = true
  · have hcomp : WrapFS.getinfo false (WrapFS.delegate_path wrapAddr) wG
        isRootP h path namespaces
        = .ok (⟨fun a => if a = h.nextTop then h.top rawAddr else h.top a,
                fun a => if a = b then setA (h.sub b) "name" (.vstr "")
                         else h.sub a,
                h.nextTop + 1⟩, h.nextTop) := by
      simp [WrapFS.getinfo, WrapFS.delegate_path, hw, hb, hroot]
    refine ⟨_, _, hcomp, ?_⟩
    intro n f
    by_cases hn : n = "basic"
    · subst hn
      by_cases hf : f = "name"
      · subst hf
        simp [infoField, hroot, hb, lookupA_setA]
      · have hfn : ¬ ("name" = f) := fun hc => hf hc.symm
        simp [infoField, hroot, hb, lookupA_setA, hf, hfn]
    · have hnb : ∀ a, lookupA (h.top rawAddr) n = some a → ¬ a = b := by
        intro a hl hab
        exact hn (hsep (n, a) (lookupA_mem hl) hab)
      cases e : lookupA (h.top rawAddr) n with
      | none => simp [infoField, e, hn, hroot]
      | some a =>
        have hab := hnb a e
        simp [infoField, e, hn, hroot, hab]
  · refine ⟨h, rawAddr, ?_, ?_⟩
    · simp [WrapFS.getinfo, WrapFS.delegate_path, hw, hroot]
    · intro n f
      simp [hroot]

/-- Claim C10: on the root path, `WrapFS.getinfo` copies the raw dict only
shallowly before masking the name: the returned top-level dict is a fresh
object, its `basic` entry still points at the very nested dict held by the
wrapped Info (whose raw dict is unchanged and still points there too), and
that shared nested dict has its name field mutated to the empty string.  On
a non-root path the returned info shares the wrapped raw dict entirely
unmodified and the heap is untouched. -/
theorem WrapFS.getinfo_shallow_copy_aliasing
    (wrapAddr : Nat) (wG : Nat → String → List String → Except Err Nat)
    (isRootP : String → Bool) (h : Heap) (path : String)
    (namespaces : List String) (rawAddr b : Nat)
    (hw : wG wrapAddr path namespaces = .ok rawAddr)
    (hb : lookupA (h.top rawAddr) "basic" = some b)
    (hvalid : rawAddr < h.nextTop) :
    (isRootP path = true →
      ∃ h2,
        WrapFS.getinfo false (WrapFS.delegate_path wrapAddr) wG isRootP h
            path namespaces = .ok (h2, h.nextTop) ∧
        h.nextTop ≠ rawAddr ∧
        lookupA (h2.top h.nextTop) "basic" = some b ∧
        lookupA (h2.top rawAddr) "basic" = some b ∧
        lookupA (h2.sub b) "name" = some (.vstr "") ∧
        h2.sub b = setA (h.sub b) "name" (.vstr "")) ∧
    (isRootP path = false →
      WrapFS.getinfo false (WrapFS.delegate_path wrapAddr) wG isRootP h
          path namespaces = .ok (h, rawAddr)) := by
  constructor
  · intro hroot
    have hcomp : WrapFS.getinfo false (WrapFS.delegate_path wrapAddr) wG
        isRootP h path namespaces
        = .ok (⟨fun a => if a = h.nextTop then h.top rawAddr else h.top a,
                fun a => if a = b then setA (h.sub b) "name" (.vstr "")
                         else h.sub a,
                h.nextTop + 1⟩, h.nextTop) := by
      simp [WrapFS.getinfo, WrapFS.delegate_path, hw, hb, hroot]
    refine ⟨_, hcomp, ?_, ?_, ?_, ?_, ?_⟩
    · exact fun hc => Nat.lt_irrefl _ (hc ▸ hvalid)
    · simpa using hb
    · have hne : ¬ rawAddr = h.nextTop := Nat.ne_of_lt hvalid
      simpa [hne] using hb
    · simp [lookupA_setA]
    · simp
  · intro hroot
    simp [WrapFS.getinfo, WrapFS.delegate_path, hw, hroot]

theorem yieldAll_eq {α : Type} (l : List α) : yieldAll l = l := by
  induction l with
  | nil => rfl
  | cons x xs ih => simp [yieldAll, ih]

/-- Claim C9: listing a directory through the proxy — plain (`listdir`),
streamed (`scandir`) or filtered (`filterdir`) — yields exactly the same
entries, in exactly the same order, as the wrapped filesystem yields at the
translated path: the sequence is forwarded unchanged, without buffering or
reordering. -/
theorem WrapFS.listing_forwards_wrapped_sequence
    (dp : String → Nat × String)
    (wListdir : Nat → String → Except Err (List String))
    (wScandir : Nat → String → Option (List String) → Except Err (List Nat))
    (wFilterdir : Nat → String → Bool → Bool → Option (List String) →
      Option (List String) → Option (List String) → Except Err (List Nat))
    (path : String) (namespaces : Option (List String))
    (exclude_dirs exclude_files : Bool)
    (wildcards dir_wildcards fnamespaces : Option (List String))
    (entries : List Nat)
    (hs : wScandir (dp path).1 (dp path).2 namespaces = .ok entries) :
    WrapFS.listdir false dp wListdir path
      = wListdir (dp path).1 (dp path).2 ∧
    WrapFS.scandir false dp wScandir path namespaces = .ok entries ∧
    WrapFS.filterdir false dp wFilterdir path exclude_dirs exclude_files
        wildcards dir_wildcards fnamespaces
      = wFilterdir (dp path).1 (dp path).2 exclude_dirs exclude_files
          wildcards dir_wildcards fnamespaces := by
  refine ⟨rfl, ?_, rfl⟩
  simp [WrapFS.scandir, hs, yieldAll_eq]

/-- Claim C9 witness: the forwarding theorem applied at a concrete path and
a concrete wrapped scandir yielding three entries. -/
theorem WrapFS.listing_forwards_wrapped_sequence_witness :
    (fun (_ : Nat) (_ : String) (_ : Option (List String)) =>
        (Except.ok [10, 20, 30] : Except Err (List Nat)))
      ((fun p => ((0 : Nat), p)) "/d").1 ((fun p => ((0 : Nat), p)) "/d").2
      none = .ok [10, 20, 30] ∧
    (WrapFS.listdir false (fun p => (0, p)) (fun _ _ => .ok ["a", "b"]) "/d"
      = (fun (_ : Nat) (_ : String) =>
          (Except.ok ["a", "b"] : Except Err (List String)))
        ((fun p => ((0 : Nat), p)) "/d").1
        ((fun p => ((0 : Nat), p)) "/d").2 ∧
    WrapFS.scandir false (fun p => (0, p)) (fun _ _ _ => .ok [10, 20, 30])
        "/d" none = .ok [10, 20, 30] ∧
    WrapFS.filterdir false (fun p => (0, p))
        (fun _ _ _ _ _ _ _ => .ok [10, 20, 30]) "/d" false false none none
        none
      = (fun (_ : Nat) (_ : String) (_ _ : Bool)
            (_ _ _ : Option (List String)) =>
          (Except.ok [10, 20, 30] : Except Err (List Nat)))
        ((fun p => ((0 : Nat), p)) "/d").1
        ((fun p => ((0 : Nat), p)) "/d").2 false false none none none) :=
  ⟨rfl,
   WrapFS.listing_forwards_wrapped_sequence (fun p => (0, p))
     (fun _ _ => .ok ["a", "b"]) (fun _ _ _ => .ok [10, 20, 30])
     (fun _ _ _ _ _ _ _ => .ok [10, 20, 30]) "/d" none false false none none
     none [10, 20, 30] rfl⟩

/-- Claim C6: an error raised by the wrapped filesystem during a delegated
call propagates through the proxy unchanged: for each embedded delegated
operation, when the wrapped call raises error `e`, the proxy call raises
exactly `e` — no re-typing, wrapping or suppression. -/
theorem WrapFS.error_propagation_unchanged
    (dp : String → Nat × String) (e : Err)
    (wGetinfo : Nat → String → List String → Except Err Nat)
    (isRootP : String → Bool) (h : Heap) (path : String)
    (namespaces : List String)
    (wListdir : Nat → String → Except Err (List String))
    (wScandir : Nat → String → Option (List String) → Except Err (List Nat))
    (onamespaces : Option (List String))
    (wOpenbin : Nat → String → String → Int → Except Err Nat)
    (mode : String) (buffering : Int)
    (wRemove : Nat → String → Except Err Unit)
    (wExists : Nat → String → Bool)
    (wMove : Nat → String → String → Bool → Except Err Unit)
    (transferOk : Bool) (src_path dst_path : String)
    (hg : wGetinfo (dp path).1 (dp path).2 namespaces = .error e)
    (hl : wListdir (dp path).1 (dp path).2 = .error e)
    (hsc : wScandir (dp path).1 (dp path).2 onamespaces = .error e)
    (ho : wOpenbin (dp path).1 (dp path).2 mode (-1) = .error e)
    (hrm : wRemove (dp path).1 (dp path).2 = .error e)
    (hsame : (dp src_path).1 = (dp dst_path).1)
    (hm : wMove (dp src_path).1 (dp src_path).2 (dp dst_path).2 true
      = .error e) :
    WrapFS.getinfo false dp wGetinfo isRootP h path namespaces
      = .error e ∧
    WrapFS.listdir false dp wListdir path = .error e ∧
    WrapFS.scandir false dp wScandir path onamespaces = .error e ∧
    WrapFS.openbin false dp wOpenbin path mode buffering = .error e ∧
    WrapFS.remove false dp wRemove path = .error e ∧
    (WrapFS.move false dp wExists wMove transferOk src_path dst_path true).1
      = .error e := by
  refine ⟨?_, ?_, ?_, ?_, ?_, ?_⟩
  · simp [WrapFS.getinfo, hg]
  · simp [WrapFS.listdir, hl]
  · simp [WrapFS.scandir, hsc]
  · simp [WrapFS.openbin, ho]
  · simp [WrapFS.remove, hrm]
  · rw [hsame] at hm
    simp [WrapFS.move, WrapFS.moveCore, hsame, hm]

/-- Claim C6 witness: the propagation theorem applied at a concrete wrapped
error (`wrappedErr 7`) raised by every wrapped call. -/
theorem WrapFS.error_propagation_unchanged_witness :
    ((fun (_ : Nat) (_ : String) (_ : List String) =>
        (Except.error (Err.wrappedErr 7) : Except Err Nat))
      ((fun p => ((0 : Nat), p)) "/x").1 ((fun p => ((0 : Nat), p)) "/x").2
      [] = .error (.wrappedErr 7)) ∧
    (WrapFS.getinfo false (fun p => (0, p))
        (fun _ _ _ => .error (.wrappedErr 7)) (fun _ => false)
        ⟨fun _ => [], fun _ => [], 0⟩ "/x" [] = .error (.wrappedErr 7) ∧
    WrapFS.listdir false (fun p => (0, p))
        (fun _ _ => .error (.wrappedErr 7)) "/x" = .error (.wrappedErr 7) ∧
    WrapFS.scandir false (fun p => (0, p))
        (fun _ _ _ => .error (.wrappedErr 7)) "/x" none
      = .error (.wrappedErr 7) ∧
    WrapFS.openbin false (fun p => (0, p))
        (fun _ _ _ _ => (Except.error (Err.wrappedErr 7) : Except Err Nat))
        "/x" "rb" 0 = .error (.wrappedErr 7) ∧
    WrapFS.remove false (fun p => (0, p))
        (fun _ _ => .error (.wrappedErr 7)) "/x" = .error (.wrappedErr 7) ∧
    (WrapFS.move false (fun p => (0, p)) (fun _ _ => false)
        (fun _ _ _ _ => .error (.wrappedErr 7)) true "/x" "/y" true).1
      = .error (.wrappedErr 7)) :=
  ⟨rfl,
   WrapFS.error_propagation_unchanged (fun p => (0, p)) (.wrappedErr 7)
     (fun _ _ _ => .error (.wrappedErr 7)) (fun _ => false)
     ⟨fun _ => [], fun _ => [], 0⟩ "/x" []
     (fun _ _ => .error (.wrappedErr 7))
     (fun _ _ _ => .error (.wrappedErr 7)) none
     (fun _ _ _ _ => .error (.wrappedErr 7)) "rb" 0
     (fun _ _ => .error (.wrappedErr 7)) (fun _ _ => false)
     (fun _ _ _ _ => .error (.wrappedErr 7)) true "/x" "/y"
     rfl rfl rfl rfl rfl rfl rfl⟩

/-- Claim C7: `opendir` raises `ResourceInvalid` when the info of the path
does not denote a directory (for example, when the path is a file), and
otherwise returns a new nested proxy (`SubFS`) scoped to the caller path,
whose recorded root equals that path and whose parent is the proxy
itself. -/
theorem WrapFS.opendir_dir_check
    (selfId : Nat) (dp : String → Nat × String)
    (wGetinfo : Nat → String → List String → Except Err Nat)
    (isRootP : String → Bool) (h h2 : Heap) (path : String) (addr : Nat)
    (hgi : WrapFS.getinfo false dp wGetinfo isRootP h path []
      = .ok (h2, addr)) :
    (infoIsDir h2 addr = false →
      WrapFS.opendir false selfId dp wGetinfo isRootP h path
        = .error .resourceInvalid) ∧
    (infoIsDir h2 addr = true →
      ∃ s : SubFS,
        WrapFS.opendir false selfId dp wGetinfo isRootP h path = .ok s ∧
        s.rootPath = path ∧ s.parent = selfId) := by
  constructor
  · intro hd
    simp [WrapFS.opendir, hgi, hd]
  · intro hd
    exact ⟨⟨selfId, path⟩, by simp [WrapFS.opendir, hgi, hd], rfl, rfl⟩

/-- Claim C1 witness: the masking theorem applied at a concrete root-path
call on a concrete wrapped raw info dict whose basic name is "root". -/
theorem WrapFS.getinfo_rootMask_correct_witness :
    lookupA
      ((⟨fun _ => [("basic", 5)],
         fun _ => [("name", .vstr "root"), ("is_dir", .vbool true)],
         3⟩ : Heap).top 0) "basic" = some 5 ∧
    (∀ pr ∈ (⟨fun _ => [("basic", 5)],
         fun _ => [("name", .vstr "root"), ("is_dir", .vbool true)],
         3⟩ : Heap).top 0, pr.2 = 5 → pr.1 = "basic") ∧
    (∃ h2 r,
      WrapFS.getinfo false (WrapFS.delegate_path 0)
          (fun _ _ _ => .ok 0) (fun _ => true)
          ⟨fun _ => [("basic", 5)],
           fun _ => [("name", .vstr "root"), ("is_dir", .vbool true)], 3⟩
          "/" [] = .ok (h2, r) ∧
      ∀ n f, infoField h2 r n f =
        if ((fun (_ : String) => true) "/") = true ∧ n = "basic" ∧ f = "name"
        then some (.vstr "")
        else infoField
          ⟨fun _ => [("basic", 5)],
           fun _ => [("name", .vstr "root"), ("is_dir", .vbool true)], 3⟩
          0 n f) :=
  ⟨by decide, by decide,
   WrapFS.getinfo_rootMask_correct 0 (fun _ _ _ => .ok 0) (fun _ => true)
     ⟨fun _ => [("basic", 5)],
      fun _ => [("name", .vstr "root"), ("is_dir", .vbool true)], 3⟩
     "/" [] 0 5 rfl (by decide) (by decide)⟩

/-- Claim C10 witness: the shallow-copy aliasing theorem applied at the
same concrete root-path call; the wrapped raw dict sits at address 0, the
shared basic dict at address 5, and the fresh copy is allocated at 3. -/
theorem WrapFS.getinfo_shallow_copy_aliasing_witness :
    lookupA
      ((⟨fun _ => [("basic", 5)],
         fun _ => [("name", .vstr "root"), ("is_dir", .vbool true)],
         3⟩ : Heap).top 0) "basic" = some 5 ∧
    (0 : Nat) < 3 ∧
    ((((fun (_ : String) => true) "/") = true →
      ∃ h2,
        WrapFS.getinfo false (WrapFS.delegate_path 0)
            (fun _ _ _ => .ok 0) (fun _ => true)
            ⟨fun _ => [("basic", 5)],
             fun _ => [("name", .vstr "root"), ("is_dir", .vbool true)], 3⟩
            "/" [] = .ok (h2, 3) ∧
        (3 : Nat) ≠ 0 ∧
        lookupA (h2.top 3) "basic" = some 5 ∧
        lookupA (h2.top 0) "basic" = some 5 ∧
        lookupA (h2.sub 5) "name" = some (.vstr "") ∧
        h2.sub 5 = setA
          ((⟨fun _ => [("basic", 5)],
             fun _ => [("name", .vstr "root"), ("is_dir", .vbool true)],
             3⟩ : Heap).sub 5) "name" (.vstr "")) ∧
    (((fun (_ : String) => true) "/") = false →
      WrapFS.getinfo false (WrapFS.delegate_path 0)
          (fun _ _ _ => .ok 0) (fun _ => true)
          ⟨fun _ => [("basic", 5)],
           fun _ => [("name", .vstr "root"), ("is_dir", .vbool true)], 3⟩
          "/" [] = .ok
            (⟨fun _ => [("basic", 5)],
              fun _ => [("name", .vstr "root"), ("is_dir", .vbool true)],
              3⟩, 0))) :=
  ⟨by decide, by decide,
   WrapFS.getinfo_shallow_copy_aliasing 0 (fun _ _ _ => .ok 0)
     (fun _ => true)
     ⟨fun _ => [("basic", 5)],
      fun _ => [("name", .vstr "root"), ("is_dir", .vbool true)], 3⟩
     "/" [] 0 5 rfl (by decide) (by decide)⟩

/-- Claim C7 witness: the opendir theorem applied at a concrete path whose
info denotes a file (is_dir false), yielding `ResourceInvalid`. -/
theorem WrapFS.opendir_dir_check_witness :
    WrapFS.getinfo false (fun p => (0, p)) (fun _ _ _ => .ok 0)
        (fun _ => false)
        ⟨fun _ => [("basic", 0)],
         fun _ => [("name", .vstr "f"), ("is_dir", .vbool false)], 1⟩
        "/f" []
      = .ok
        (⟨fun _ => [("basic", 0)],
          fun _ => [("name", .vstr "f"), ("is_dir", .vbool false)], 1⟩, 0) ∧
    ((infoIsDir
        ⟨fun _ => [("basic", 0)],
         fun _ => [("name", .vstr "f"), ("is_dir", .vbool false)], 1⟩ 0
        = false →
      WrapFS.opendir false 9 (fun p => (0, p)) (fun _ _ _ => .ok 0)
          (fun _ => false)
          ⟨fun _ => [("basic", 0)],
           fun _ => [("name", .vstr "f"), ("is_dir", .vbool false)], 1⟩
          "/f" = .error .resourceInvalid) ∧
    (infoIsDir
        ⟨fun _ => [("basic", 0)],
         fun _ => [("name", .vstr "f"), ("is_dir", .vbool false)], 1⟩ 0
        = true →
      ∃ s : SubFS,
        WrapFS.opendir false 9 (fun p => (0, p)) (fun _ _ _ => .ok 0)
            (fun _ => false)
            ⟨fun _ => [("basic", 0)],
             fun _ => [("name", .vstr "f"), ("is_dir", .vbool false)], 1⟩
            "/f" = .ok s ∧
        s.rootPath = "/f" ∧ s.parent = 9)) :=
  ⟨rfl,
   WrapFS.opendir_dir_check 9 (fun p => (0, p)) (fun _ _ _ => .ok 0)
     (fun _ => false)
     ⟨fun _ => [("basic", 0)],
      fun _ => [("name", .vstr "f"), ("is_dir", .vbool false)], 1⟩
     ⟨fun _ => [("basic", 0)],
      fun _ => [("name", .vstr "f"), ("is_dir", .vbool false)], 1⟩
     "/f" 0 rfl⟩

/-- Claim C2: `move` dispatches on filesystem instance identity: when the
two translated paths resolve to the same instance, exactly one native move
call is issued on that instance with the two translated paths and the
streaming collaborator is never invoked; when they resolve to different
instances, no native move is issued, the streaming collaborator is
invoked, and the source is removed only after a successful transfer (on a
failed transfer the source is not removed).  `hnb` says the pre-flight
destination check does not block the move. -/
theorem WrapFS.move_dispatch_on_instance_identity
    (dp : String → Nat × String) (wExists : Nat → String → Bool)
    (wMove : Nat → String → String → Bool → Except Err Unit)
    (transferOk : Bool) (src_path dst_path : String) (overwrite : Bool)
    (hnb : overwrite = true ∨ wExists (dp dst_path).1 (dp dst_path).2
      = false) :
    ((dp src_path).1 = (dp dst_path).1 →
      (WrapFS.move false dp wExists wMove transferOk src_path dst_path
          overwrite).2.filter (fun c => c.isNativeMove)
        = [.nativeMove (dp src_path).1 (dp src_path).2 (dp dst_path).2
            overwrite] ∧
      (WrapFS.move false dp wExists wMove transferOk src_path dst_path
          overwrite).2.filter (fun c => c.isStream) = []) ∧
    ((dp src_path).1 ≠ (dp dst_path).1 →
      (WrapFS.move false dp wExists wMove transferOk src_path dst_path
          overwrite).2.filter (fun c => c.isNativeMove) = [] ∧
      ∃ t0 : List FsCall,
        t0.all (fun c => c.mutatesState = false) = true ∧
        (transferOk = true →
          (WrapFS.move false dp wExists wMove transferOk src_path dst_path
              overwrite).1 = .ok () ∧
          (WrapFS.move false dp wExists wMove transferOk src_path dst_path
              overwrite).2
            = t0 ++ [.streamTransfer (dp src_path).1 (dp src_path).2
                       (dp dst_path).1 (dp dst_path).2,
                     .removeSource (dp src_path).1 (dp src_path).2]) ∧
        (transferOk = false →
          (WrapFS.move false dp wExists wMove transferOk src_path dst_path
              overwrite).1 = .error .transferFailed ∧
          (WrapFS.move false dp wExists wMove transferOk src_path dst_path
              overwrite).2
            = t0 ++ [.streamTransfer (dp src_path).1 (dp src_path).2
                       (dp dst_path).1 (dp dst_path).2])) := by
  rcases hnb with hov | hex
  · subst hov
    constructor
    · intro hsame
      constructor <;>
        simp [WrapFS.move, WrapFS.moveCore, hsame, FsCall.isNativeMove,
          FsCall.isStream]
    · intro hdiff
      refine ⟨?_, [], by simp, ?_, ?_⟩
      · cases transferOk <;>
          simp [WrapFS.move, WrapFS.moveCore, move_file, hdiff,
            FsCall.isNativeMove]
      · intro htr
        subst htr
        constructor <;> simp [WrapFS.move, WrapFS.moveCore, move_file, hdiff]
      · intro htr
        subst htr
        constructor <;> simp [WrapFS.move, WrapFS.moveCore, move_file, hdiff]
  · constructor
    · intro hsame
      cases overwrite with
      | false =>
        constructor <;>
          simp [WrapFS.move, WrapFS.existsP, WrapFS.moveCore, hex, hsame,
            FsCall.isNativeMove, FsCall.isStream, FsCall.isExistsQ]
      | true =>
        constructor <;>
          simp [WrapFS.move, WrapFS.moveCore, hsame, FsCall.isNativeMove,
            FsCall.isStream]
    · intro hdiff
      cases overwrite with
      | false =>
        refine ⟨?_, [.existsQ (dp dst_path).1 (dp dst_path).2],
          by simp [FsCall.mutatesState], ?_, ?_⟩
        · cases transferOk <;>
            simp [WrapFS.move, WrapFS.existsP, WrapFS.moveCore, move_file,
              hex, hdiff, FsCall.isNativeMove, FsCall.isExistsQ]
        · intro htr
          subst htr
          constructor <;>
            simp [WrapFS.move, WrapFS.existsP, WrapFS.moveCore, move_file,
              hex, hdiff]
        · intro htr
          subst htr
          constructor <;>
            simp [WrapFS.move, WrapFS.existsP, WrapFS.moveCore, move_file,
              hex, hdiff]
      | true =>
        refine ⟨?_, [], by simp, ?_, ?_⟩
        · cases transferOk <;>
            simp [WrapFS.move, WrapFS.moveCore, move_file, hdiff,
              FsCall.isNativeMove]
        · intro htr
          subst htr
          constructor <;>
            simp [WrapFS.move, WrapFS.moveCore, move_file, hdiff]
        · intro htr
          subst htr
          constructor <;>
            simp [WrapFS.move, WrapFS.moveCore, move_file, hdiff]

/-- Claim C2 witness: the dispatch theorem applied at a concrete
translation strategy that resolves source and destination to two different
filesystem instances (identifiers 2 and 4), with overwrite allowed and a
successful transfer, so the streaming collaborator runs and then removes
the source. -/
theorem WrapFS.move_dispatch_on_instance_identity_witness :
    (true = true ∨ (fun (_ : Nat) (_ : String) => true) 4 "/dst" = false) ∧
    (((2 : Nat) = 4 →
      (WrapFS.move false (fun p : String => (p.length, p))
          (fun _ _ => true) (fun _ _ _ _ => .ok ()) true "/s" "/dst"
          true).2.filter (fun c => c.isNativeMove)
        = [.nativeMove 2 "/s" "/dst" true] ∧
      (WrapFS.move false (fun p : String => (p.length, p))
          (fun _ _ => true) (fun _ _ _ _ => .ok ()) true "/s" "/dst"
          true).2.filter (fun c => c.isStream) = []) ∧
    ((2 : Nat) ≠ 4 →
      (WrapFS.move false (fun p : String => (p.length, p))
          (fun _ _ => true) (fun _ _ _ _ => .ok ()) true "/s" "/dst"
          true).2.filter (fun c => c.isNativeMove) = [] ∧
      ∃ t0 : List FsCall,
        t0.all (fun c => c.mutatesState = false) = true ∧
        (true = true →
          (WrapFS.move false (fun p : String => (p.length, p))
              (fun _ _ => true) (fun _ _ _ _ => .ok ()) true "/s" "/dst"
              true).1 = .ok () ∧
          (WrapFS.move false (fun p : String => (p.length, p))
              (fun _ _ => true) (fun _ _ _ _ => .ok ()) true "/s" "/dst"
              true).2
            = t0 ++ [.streamTransfer 2 "/s" 4 "/dst",
                     .removeSource 2 "/s"]) ∧
        (true = false →
          (WrapFS.move false (fun p : String => (p.length, p))
              (fun _ _ => true) (fun _ _ _ _ => .ok ()) true "/s" "/dst"
              true).1 = .error .transferFailed ∧
          (WrapFS.move false (fun p : String => (p.length, p))
              (fun _ _ => true) (fun _ _ _ _ => .ok ()) true "/s" "/dst"
              true).2
            = t0 ++ [.streamTransfer 2 "/s" 4 "/dst"]))) :=
  ⟨Or.inl rfl,
   WrapFS.move_dispatch_on_instance_identity
     (fun p : String => (p.length, p)) (fun _ _ => true)
     (fun _ _ _ _ => .ok ()) true "/s" "/dst" true (Or.inl rfl)⟩

/-- Claim C3: with overwrite disallowed and an existing destination, `move`
raises `DestinationExists` with only the existence query issued (no
state-modifying call, hence no transfer begins); with overwrite allowed no
existence pre-flight is performed at all and the transfer proceeds (the
trace contains a native move or a streamed transfer). -/
theorem WrapFS.move_destination_exists_preflight
    (dp : String → Nat × String) (wExists : Nat → String → Bool)
    (wMove : Nat → String → String → Bool → Except Err Unit)
    (transferOk : Bool) (src_path dst_path : String)
    (hex : wExists (dp dst_path).1 (dp dst_path).2 = true) :
    ((WrapFS.move false dp wExists wMove transferOk src_path dst_path
        false).1 = .error (.destinationExists dst_path) ∧
      (WrapFS.move false dp wExists wMove transferOk src_path dst_path
        false).2.all (fun c => c.mutatesState = false) = true) ∧
    (∀ wExists2 : Nat → String → Bool,
      (WrapFS.move false dp wExists2 wMove transferOk src_path dst_path
        true).2.all (fun c => c.isExistsQ = false) = true ∧
      (WrapFS.move false dp wExists2 wMove transferOk src_path dst_path
        true).2.any (fun c => c.isNativeMove || c.isStream) = true) := by
  constructor
  · constructor <;>
      simp [WrapFS.move, WrapFS.existsP, hex, FsCall.mutatesState]
  · intro wExists2
    by_cases hsame : (dp src_path).1 = (dp dst_path).1
    · constructor <;>
        simp [WrapFS.move, WrapFS.moveCore, hsame, FsCall.isExistsQ,
          FsCall.isNativeMove]
    · cases transferOk <;> constructor <;>
        simp [WrapFS.move, WrapFS.moveCore, move_file, hsame,
          FsCall.isExistsQ, FsCall.isNativeMove, FsCall.isStream]

/-- Claim C3 witness: the pre-flight theorem applied at a concrete call in
which the destination exists on the wrapped filesystem. -/
theorem WrapFS.move_destination_exists_preflight_witness :
    (fun (_ : Nat) (_ : String) => true) 0 "/d" = true ∧
    (((WrapFS.move false (fun p => (0, p)) (fun _ _ => true)
        (fun _ _ _ _ => .ok ()) true "/s" "/d" false).1
        = .error (.destinationExists "/d") ∧
      (WrapFS.move false (fun p => (0, p)) (fun _ _ => true)
        (fun _ _ _ _ => .ok ()) true "/s" "/d" false).2.all
        (fun c => c.mutatesState = false) = true) ∧
    (∀ wExists2 : Nat → String → Bool,
      (WrapFS.move false (fun p => (0, p)) wExists2
        (fun _ _ _ _ => .ok ()) true "/s" "/d" true).2.all
        (fun c => c.isExistsQ = false) = true ∧
      (WrapFS.move false (fun p => (0, p)) wExists2
        (fun _ _ _ _ => .ok ()) true "/s" "/d" true).2.any
        (fun c => c.isNativeMove || c.isStream) = true)) :=
  ⟨rfl,
   WrapFS.move_destination_exists_preflight (fun p => (0, p))
     (fun _ _ => true) (fun _ _ _ _ => .ok ()) true "/s" "/d" rfl⟩

/-- Claim C4 counterexample: with the proxy closed, `copy` does not raise
`FilesystemClosed` before delegating — it delegates to the external copy
collaborator (trace contains the copy call) and returns its result. -/
theorem WrapFS.copy_skips_closed_check_cex :
    WrapFS.copy true (fun p => (0, p)) true "/a" "/b"
      = (.ok (), [.copyFileCall 0 "/a" 0 "/b"]) ∧
    (WrapFS.copy true (fun p => (0, p)) true "/a" "/b").1
      ≠ .error .filesystemClosed := by
  constructor
  · rfl
  · simp [WrapFS.copy, copy_file]

/-- Claim C4 amended: every embedded single-path operation verifies the
closed flag first and raises `FilesystemClosed` without delegating, and
`move` with overwrite disallowed does so through its `exists` pre-flight;
but `move` with overwrite allowed dispatches without any closed check
(identically to a non-closed proxy), and `copy` never consults the closed
flag at all. -/
theorem WrapFS.closed_check_coverage :
    (∀ (dp : String → Nat × String) wGetinfo isRootP h path namespaces,
      WrapFS.getinfo true dp wGetinfo isRootP h path namespaces
        = .error .filesystemClosed) ∧
    (∀ (dp : String → Nat × String) wListdir path,
      WrapFS.listdir true dp wListdir path = .error .filesystemClosed) ∧
    (∀ (dp : String → Nat × String) wScandir path namespaces,
      WrapFS.scandir true dp wScandir path namespaces
        = .error .filesystemClosed) ∧
    (∀ (dp : String → Nat × String) wOpenbin path mode buffering,
      @WrapFS.openbin Nat true dp wOpenbin path mode buffering
        = .error .filesystemClosed) ∧
    (∀ (dp : String → Nat × String) wRemove path,
      WrapFS.remove true dp wRemove path = .error .filesystemClosed) ∧
    (∀ (dp : String → Nat × String) wExists path,
      WrapFS.existsP true dp wExists path
        = (.error .filesystemClosed, [])) ∧
    (∀ (dp : String → Nat × String) wExists wMove transferOk src dst,
      WrapFS.move true dp wExists wMove transferOk src dst false
        = (.error .filesystemClosed, [])) ∧
    (∀ (dp : String → Nat × String) wExists wMove transferOk src dst,
      WrapFS.move true dp wExists wMove transferOk src dst true
        = WrapFS.moveCore dp wMove transferOk src dst true) ∧
    (∀ (closed closed2 : Bool) (dp : String → Nat × String) copyOk src dst,
      WrapFS.copy closed dp copyOk src dst
        = WrapFS.copy closed2 dp copyOk src dst) := by
  refine ⟨?_, ?_, ?_, ?_, ?_, ?_, ?_, ?_, ?_⟩ <;> intros <;> rfl

/-- Claim C5 (evaluation of the code at the failing input): `openbin` does
not forward the caller-supplied buffering value — at a call with caller
buffering 0 the wrapped filesystem receives buffering -1, the literal the
source passes on line 118, while the mode is forwarded unchanged. -/
theorem WrapFS.openbin_buffering_override_eval :
    WrapFS.openbin false (fun p => (0, p))
        (fun f q m b => .ok (f, q, m, b)) "/f" "rb" 0
      = .ok (0, "/f", "rb", -1) ∧
    ((-1 : Int) ≠ 0) := by
  constructor
  · rfl
  · decide

/-- Claim C8 counterexample: at the concrete chain of the claim — a proxy
labelled "cache" wrapping a proxy labelled "sub" wrapping a base whose own
rendering is "Base()" — the rendering of the source equals
"Base()(sub, cache)", not the "Base(sub, cache)" the claim requires,
because the format string concatenates the full base rendering with the
parenthesised label list. -/
theorem wrapStr_concrete_render_cex :
    wrapStr (.wrap (some "cache") (.wrap (some "sub") (.base "Base()")))
      = "Base()(sub, cache)" ∧
    wrapStr (.wrap (some "cache") (.wrap (some "sub") (.base "Base()")))
      ≠ "Base(sub, cache)" := by
  constructor
  · rfl
  · decide

/-- Claim C8 amended: the rendering walks from the outermost proxy inward,
collects each label while skipping unlabeled proxies, stops at the first
non-proxy filesystem, and renders the string of that filesystem directly
followed by the parenthesised labels ordered innermost-first; hence a base
whose own rendering is "Base" yields "Base(sub, cache)" for the
cache-over-sub chain, while a base rendering as "Base()" yields
"Base()(sub, cache)"; fully unlabeled chains render as the base string
alone, without error. -/
theorem wrapStr_render_amended :
    (∀ c : FSChain, wrapStr (.wrap none c) = wrapStr c) ∧
    wrapStr (.wrap (some "cache") (.wrap (some "sub") (.base "Base")))
      = "Base(sub, cache)" ∧
    wrapStr (.wrap (some "cache") (.wrap (some "sub") (.base "Base()")))
      = "Base()(sub, cache)" ∧
    (∀ r : String, wrapStr (.wrap none (.base r)) = r) ∧
    (∀ r : String, wrapStr (.wrap none (.wrap none (.base r))) = r) := by
  refine ⟨?_, rfl, rfl, ?_, ?_⟩
  · intro c
    rfl
  · intro r
    rfl
  · intro r
    rfl
